import Mathlib

/-!
A verification development for the POLARIS loan-origination system.

The development shallowly embeds the core of the repository:

* `calculate_emi` and the underwriting rule engine
  (`src/mock_apis.py`, `src/offer_mart.py`, `src/agents/underwriting_agent.py`);
* the conversation state and anti-loop safeguard (`src/state.py`);
* the orchestrator state machine (`src/master_agent.py`) together with the
  mock data stores it consults (`src/offer_mart.py`, `src/mock_apis.py`).

Python floats are modelled as exact rationals (`ℚ`); `round(x, 2)` and
`round(x, 0)` are modelled with Mathlib's `round` (round-half-up instead of
Python's round-half-even: the two agree except on exact ties, which none of
the statements below depend on).  Python `dict.get` defaulting and
truthiness tests are modelled explicitly with `Option` and the comparisons
spelled out at each use site.

Genuinely external effects — the Gemini-based field extraction inside
`SalesAgent.process`, the MD5 digests of `BaseAgent.compute_input_hash`, the
wall-clock/uuid sanction identifier, and the regex salary heuristics of
`MasterAgent._extract_salary` — are modelled as an oracle environment `Env`
over which all invariants are universally quantified.
-/

namespace Polaris

/-- Python `round(x, 2)`: round to two decimal places. -/
def round2 (q : ℚ) : ℚ := (round (q * 100) : ℤ) / 100

/-- Python `round(x, 0)`: round to the nearest whole unit. -/
def round0 (q : ℚ) : ℚ := (round q : ℤ)

/-- `calculate_emi` from `src/mock_apis.py` (identical copy in
`src/offer_mart.py`): reducing-balance EMI, rounded to 2 decimals; the
zero-rate branch returns `principal / tenure_months` unrounded. -/
def calculate_emi (principal annual_rate : ℚ) (tenure_months : ℕ) : ℚ :=
  let monthly_rate := annual_rate / 12 / 100
  if monthly_rate = 0 then principal / tenure_months
  else round2 (principal * monthly_rate * (1 + monthly_rate) ^ tenure_months /
    ((1 + monthly_rate) ^ tenure_months - 1))

/-- Underwriting decisions produced by the rule engine. -/
inductive UWDecision
  | APPROVED
  | REJECTED
  | NEED_SALARY_SLIP
  deriving DecidableEq, Repr

/-- The input dictionary passed to `UnderwritingAgent.process`.  Every field
is an `Option` because the Python side is a dict whose values may be `None`;
`dict.get` defaulting is applied inside `UnderwritingAgent.process` exactly
where the source applies it.  (`credit_score` is passed by the orchestrator
but ignored by the agent, which consults the credit bureau instead.) -/
structure UWInputs where
  requested_amount : Option ℚ
  tenure_months : Option ℤ
  preapproved_limit : Option ℚ
  credit_score : Option ℤ
  interest_rate : Option ℚ
  pan_number : Option String
  salary : Option ℚ
  deriving DecidableEq, Repr

/-- The result dictionary of `UnderwritingAgent.process`.  The human-readable
`reason` strings are abbreviated tags (the source interpolates amounts into
them; no claim depends on their exact text). -/
structure UWResult where
  decision : UWDecision
  emi : Option ℚ
  reason : String
  approved_amount : Option ℚ
  suggested_amount : Option ℚ
  max_eligible : Option ℚ
  deriving DecidableEq, Repr

/-- Python truthiness of an optional string (`if pan_number:`). -/
def truthyStr : Option String → Bool
  | none => false
  | some s => s != ""

/-- Effective tenure used by the engine: `inputs.get("tenure_months", 12)`
followed by `if not tenure_months or tenure_months <= 0: tenure_months = 12`
(a `None` value and a nonpositive value both normalize to 12). -/
def effTenure : Option ℤ → ℕ
  | none => 12
  | some t => if t ≤ 0 then 12 else t.toNat

namespace UnderwritingAgent

/-- `UnderwritingAgent.MIN_CREDIT_SCORE`. -/
def MIN_CREDIT_SCORE : ℤ := 700

/-- `UnderwritingAgent._calculate_max_loan`: maximum principal affordable at
a given EMI, by inverting the EMI formula; `round(principal, 0)`. -/
def calculate_max_loan (max_emi annual_rate : ℚ) (tenure_months : ℕ) : ℚ :=
  let monthly_rate := annual_rate / 12 / 100
  if monthly_rate = 0 then max_emi * tenure_months
  else round0 (max_emi * ((1 + monthly_rate) ^ tenure_months - 1) /
    (monthly_rate * (1 + monthly_rate) ^ tenure_months))

/-- `UnderwritingAgent.process` from `src/agents/underwriting_agent.py`.

The credit bureau (`CreditBureauAPI.fetch_credit_score`) is abstracted to
the map `bureau : String → Option ℤ` from PAN to credit score (`none` models
the `success = False` "no credit history" response); the in-repo mock
database instance is `bureauDB` below.  Branches follow the source in order:
invalid amount, tenure normalization, missing PAN, bureau failure, RULE 1
(credit floor), EMI computation, RULE 2 (within limit), RULE 3 (stretch zone
with salary check), RULE 4 (hard ceiling). -/
def process (bureau : String → Option ℤ) (inputs : UWInputs) : UWResult :=
  match inputs.requested_amount with
  | none =>
    { decision := .REJECTED, emi := none, reason := "INVALID_AMOUNT",
      approved_amount := none, suggested_amount := none, max_eligible := none }
  | some requested_amount =>
    if requested_amount ≤ 0 then
      { decision := .REJECTED, emi := none, reason := "INVALID_AMOUNT",
        approved_amount := none, suggested_amount := none, max_eligible := none }
    else
      let tenure_months : ℕ := effTenure inputs.tenure_months
      let preapproved_limit : ℚ := inputs.preapproved_limit.getD 0
      let interest_rate : ℚ := inputs.interest_rate.getD 14
      if truthyStr inputs.pan_number then
        match bureau (inputs.pan_number.getD "") with
        | none =>
          { decision := .REJECTED, emi := none, reason := "NO_CREDIT_HISTORY",
            approved_amount := none, suggested_amount := none, max_eligible := none }
        | some credit_score =>
          if credit_score < MIN_CREDIT_SCORE then
            { decision := .REJECTED, emi := none, reason := "CREDIT_SCORE_BELOW_MIN",
              approved_amount := none, suggested_amount := none, max_eligible := none }
          else
            let emi := calculate_emi requested_amount interest_rate tenure_months
            if requested_amount ≤ preapproved_limit then
              { decision := .APPROVED, emi := some emi, reason := "WITHIN_PREAPPROVED_LIMIT",
                approved_amount := some requested_amount, suggested_amount := none,
                max_eligible := none }
            else
              let double_limit := preapproved_limit * 2
              if requested_amount ≤ double_limit then
                match inputs.salary with
                | some salary =>
                  if 0 < salary then
                    -- MAX_EMI_TO_SALARY_RATIO = 0.5
                    let max_emi_allowed := salary * (1 / 2)
                    if emi ≤ max_emi_allowed then
                      { decision := .APPROVED, emi := some emi,
                        reason := "INCOME_VERIFIED", approved_amount := some requested_amount,
                        suggested_amount := none, max_eligible := none }
                    else
                      { decision := .REJECTED, emi := some emi,
                        reason := "EMI_EXCEEDS_HALF_SALARY", approved_amount := none,
                        suggested_amount :=
                          some (calculate_max_loan max_emi_allowed interest_rate tenure_months),
                        max_eligible := none }
                  else
                    { decision := .NEED_SALARY_SLIP, emi := some emi,
                      reason := "INCOME_VERIFICATION_REQUIRED", approved_amount := none,
                      suggested_amount := none, max_eligible := none }
                | none =>
                  { decision := .NEED_SALARY_SLIP, emi := some emi,
                    reason := "INCOME_VERIFICATION_REQUIRED", approved_amount := none,
                    suggested_amount := none, max_eligible := none }
              else
                { decision := .REJECTED, emi := none, reason := "EXCEEDS_MAX_ELIGIBLE",
                  approved_amount := none, suggested_amount := none,
                  max_eligible := some double_limit }
      else
        { decision := .REJECTED, emi := none, reason := "PAN_REQUIRED",
          approved_amount := none, suggested_amount := none, max_eligible := none }

end UnderwritingAgent

/-- The credit score as `UnderwritingAgent.process` determines it
(`src/agents/underwriting_agent.py` lines 87-96): initialized to 0, set from
the bureau response when a truthy PAN is present and the bureau succeeds. -/
def fetched_credit_score (bureau : String → Option ℤ) (i : UWInputs) : ℤ :=
  if truthyStr i.pan_number then (bureau (i.pan_number.getD "")).getD 0 else 0

end Polaris

namespace Polaris

/-- C1: for every invocation of the underwriting rule engine
(`UnderwritingAgent.process`) with `requestedAmount > 0` and
`creditScore < 700`, the result has `decision = REJECTED` and `emi = null`,
regardless of tenure, salary, or preapproved limit; the credit-floor check
precedes all other checks and is never bypassed. -/
theorem C1_credit_floor_rejects (bureau : String → Option ℤ) (i : UWInputs) (a : ℚ)
    (hamt : i.requested_amount = some a) (hpos : 0 < a)
    (hscore : fetched_credit_score bureau i < 700) :
    (UnderwritingAgent.process bureau i).decision = .REJECTED ∧
      (UnderwritingAgent.process bureau i).emi = none := by
  have h0 : ¬ (a ≤ 0) := not_le.mpr hpos
  unfold UnderwritingAgent.process
  by_cases hpan : truthyStr i.pan_number = true
  · unfold fetched_credit_score at hscore
    rw [if_pos hpan] at hscore
    cases hbur : bureau (i.pan_number.getD "") with
    | none => simp [hamt, h0, hpan, hbur]
    | some sc =>
      rw [hbur, Option.getD_some] at hscore
      simp [hamt, h0, hpan, hbur, UnderwritingAgent.MIN_CREDIT_SCORE, hscore]
  · simp [hamt, h0, hpan]

/-- C2: for every invocation of `UnderwritingAgent.process` with
`0 < requestedAmount <= preapprovedLimit` and `creditScore >= 700`, the
result has `decision = APPROVED` and `approved_amount = requestedAmount`. -/
theorem C2_within_limit_approves (bureau : String → Option ℤ) (i : UWInputs)
    (a L : ℚ) (p : String) (sc : ℤ)
    (hamt : i.requested_amount = some a) (hpos : 0 < a)
    (hpan : i.pan_number = some p) (hp : p ≠ "")
    (hbur : bureau p = some sc) (hsc : 700 ≤ sc)
    (hlim : i.preapproved_limit = some L) (hle : a ≤ L) :
    (UnderwritingAgent.process bureau i).decision = .APPROVED ∧
      (UnderwritingAgent.process bureau i).approved_amount = some a := by
  have h0 : ¬ (a ≤ 0) := not_le.mpr hpos
  have htr : truthyStr i.pan_number = true := by
    rw [hpan]; simpa [truthyStr] using hp
  have hns : ¬ (sc < UnderwritingAgent.MIN_CREDIT_SCORE) := by
    simp only [UnderwritingAgent.MIN_CREDIT_SCORE]; omega
  unfold UnderwritingAgent.process
  simp [hamt, h0, htr, hpan, hbur, hlim, hns, hle, truthyStr, hp]

/-- C6: stretch zone.  With `creditScore >= 700` and
`preapprovedLimit < requestedAmount <= 2 * preapprovedLimit`: no known salary
gives `NEED_SALARY_SLIP` with `emi` populated; a known salary with
`emi <= 0.5 * salary` gives `APPROVED`; a known salary with
`emi > 0.5 * salary` gives `REJECTED` with `suggested_amount` the principal
obtained by inverting the EMI formula at `maxEmi = 0.5 * salary` for the same
(normalized) tenure and rate, rounded to the nearest whole unit
(`maxEmi * tenure` when the monthly rate is 0). -/
theorem C6_stretch_zone (bureau : String → Option ℤ) (i : UWInputs)
    (a L : ℚ) (p : String) (sc : ℤ)
    (hamt : i.requested_amount = some a) (hpos : 0 < a)
    (hpan : i.pan_number = some p) (hp : p ≠ "")
    (hbur : bureau p = some sc) (hsc : 700 ≤ sc)
    (hlim : i.preapproved_limit = some L) (hgt : L < a) (hle2 : a ≤ 2 * L) :
    (i.salary = none →
      (UnderwritingAgent.process bureau i).decision = .NEED_SALARY_SLIP ∧
        (UnderwritingAgent.process bureau i).emi =
          some (calculate_emi a (i.interest_rate.getD 14) (effTenure i.tenure_months))) ∧
    (∀ sl : ℚ, i.salary = some sl → 0 < sl →
      calculate_emi a (i.interest_rate.getD 14) (effTenure i.tenure_months) ≤ sl * (1 / 2) →
      (UnderwritingAgent.process bureau i).decision = .APPROVED) ∧
    (∀ sl : ℚ, i.salary = some sl → 0 < sl →
      sl * (1 / 2) < calculate_emi a (i.interest_rate.getD 14) (effTenure i.tenure_months) →
      (UnderwritingAgent.process bureau i).decision = .REJECTED ∧
        (UnderwritingAgent.process bureau i).suggested_amount =
          some (if (i.interest_rate.getD 14) / 12 / 100 = 0 then
              sl * (1 / 2) * (effTenure i.tenure_months : ℚ)
            else
              round0 (sl * (1 / 2) *
                ((1 + (i.interest_rate.getD 14) / 12 / 100) ^ effTenure i.tenure_months - 1) /
                ((i.interest_rate.getD 14) / 12 / 100 *
                  (1 + (i.interest_rate.getD 14) / 12 / 100) ^ effTenure i.tenure_months)))) := by
  have h0 : ¬ (a ≤ 0) := not_le.mpr hpos
  have htr : truthyStr i.pan_number = true := by
    rw [hpan]; simpa [truthyStr] using hp
  have hns : ¬ (sc < UnderwritingAgent.MIN_CREDIT_SCORE) := by
    simp only [UnderwritingAgent.MIN_CREDIT_SCORE]; omega
  have hnl : ¬ (a ≤ L) := not_le.mpr hgt
  have hl2 : a ≤ L * 2 := by linarith
  refine ⟨?_, ?_, ?_⟩
  · intro hsal
    unfold UnderwritingAgent.process
    simp [hamt, h0, htr, hpan, hbur, hlim, hns, hnl, hl2, hsal, truthyStr, hp]
  · intro sl hsal hslpos hemi
    rw [one_div] at hemi
    unfold UnderwritingAgent.process
    simp [hamt, h0, htr, hpan, hbur, hlim, hns, hnl, hl2, hsal, hslpos, hemi, truthyStr, hp]
  · intro sl hsal hslpos hemi
    have hnemi : ¬ (calculate_emi a (i.interest_rate.getD 14) (effTenure i.tenure_months) ≤
        sl * 2⁻¹) := by rw [← one_div]; exact not_le.mpr hemi
    unfold UnderwritingAgent.process
    simp [hamt, h0, htr, hpan, hbur, hlim, hns, hnl, hl2, hsal, hslpos, hnemi, truthyStr, hp,
      UnderwritingAgent.calculate_max_loan, round0]

/-- C7: for every principal `P > 0`, annual rate `>= 0` and tenure `n > 0`,
`calculate_emi P rate n` equals the spec formula
`round(P * r * (1+r)^n / ((1+r)^n - 1), 2)` with `r = rate/12/100`, and
equals `P / n` when `r = 0` (equivalently `rate = 0`). -/
theorem C7_emi_formula (P rate : ℚ) (n : ℕ) (hP : 0 < P) (hr : 0 ≤ rate) (hn : 0 < n) :
    (rate = 0 → calculate_emi P rate n = P / n) ∧
    (rate ≠ 0 → calculate_emi P rate n =
      round2 (P * (rate / 12 / 100) * (1 + rate / 12 / 100) ^ n /
        ((1 + rate / 12 / 100) ^ n - 1))) := by
  constructor
  · intro h; subst h; simp [calculate_emi]
  · intro h
    have hne : rate / 12 / 100 ≠ 0 := div_ne_zero (div_ne_zero h (by norm_num)) (by norm_num)
    simp [calculate_emi, hne]

/-! ### Monotonicity of the EMI in the rate

The key identity: the reciprocal of the annuity factor
`A(r) = r (1+r)^n / ((1+r)^n - 1)` is the sum of the discount factors
`(1+r)^{-k}` for `k = 1..n`, which is termwise antitone in `r`. -/

theorem annuitySum_closed (r : ℚ) (n : ℕ) (hr : 0 < r) :
    ∑ k in Finset.range n, ((1 + r)⁻¹) ^ (k + 1) =
      ((1 + r) ^ n - 1) / (r * (1 + r) ^ n) := by
  have h1 : (0:ℚ) < 1 + r := by linarith
  have hne : (1 + r : ℚ) ≠ 0 := ne_of_gt h1
  induction n with
  | zero => simp
  | succ m ih =>
    rw [Finset.sum_range_succ, ih]
    have hpm : ((1 + r) : ℚ) ^ m ≠ 0 := pow_ne_zero _ hne
    have hpm1 : ((1 + r) : ℚ) ^ (m + 1) ≠ 0 := pow_ne_zero _ hne
    field_simp
    ring

theorem annuitySum_pos (r : ℚ) (n : ℕ) (hr : 0 < r) (hn : 0 < n) :
    0 < ∑ k in Finset.range n, ((1 + r)⁻¹) ^ (k + 1) :=
  Finset.sum_pos (fun k _ => pow_pos (inv_pos.mpr (by linarith)) _)
    (Finset.nonempty_range_iff.mpr hn.ne')

theorem annuitySum_anti (r₁ r₂ : ℚ) (n : ℕ) (h1 : 0 < r₁) (h12 : r₁ ≤ r₂) :
    ∑ k in Finset.range n, ((1 + r₂)⁻¹) ^ (k + 1) ≤
      ∑ k in Finset.range n, ((1 + r₁)⁻¹) ^ (k + 1) := by
  apply Finset.sum_le_sum
  intro k _
  apply pow_le_pow_left₀ (inv_nonneg.mpr (by linarith))
  exact inv_anti₀ (by linarith) (by linarith)

theorem annuity_factor_mono (r₁ r₂ : ℚ) (n : ℕ) (h1 : 0 < r₁) (h12 : r₁ ≤ r₂)
    (hn : 0 < n) :
    r₁ * (1 + r₁) ^ n / ((1 + r₁) ^ n - 1) ≤ r₂ * (1 + r₂) ^ n / ((1 + r₂) ^ n - 1) := by
  have h2 : 0 < r₂ := lt_of_lt_of_le h1 h12
  have e1 : r₁ * (1 + r₁) ^ n / ((1 + r₁) ^ n - 1) =
      (∑ k in Finset.range n, ((1 + r₁)⁻¹) ^ (k + 1))⁻¹ := by
    rw [annuitySum_closed r₁ n h1, inv_div]
  have e2 : r₂ * (1 + r₂) ^ n / ((1 + r₂) ^ n - 1) =
      (∑ k in Finset.range n, ((1 + r₂)⁻¹) ^ (k + 1))⁻¹ := by
    rw [annuitySum_closed r₂ n h2, inv_div]
  rw [e1, e2]
  exact inv_anti₀ (annuitySum_pos r₂ n h2 hn) (annuitySum_anti r₁ r₂ n h1 h12)

theorem round2_mono {a b : ℚ} (h : a ≤ b) : round2 a ≤ round2 b := by
  unfold round2
  have hr : round (a * 100) ≤ round (b * 100) := by
    rw [round_eq, round_eq]
    exact Int.floor_le_floor (by linarith)
  have hc : ((round (a * 100) : ℤ) : ℚ) ≤ ((round (b * 100) : ℤ) : ℚ) :=
    Int.cast_le.mpr hr
  linarith

/-- C8 counterexample: EMI is NOT non-decreasing in the annual rate across the
zero-rate boundary.  At principal 100, tenure 3, the zero-rate EMI is the
exact 100/3 while the EMI at the slightly higher rate 0.001 rounds down to
33.33 < 100/3, violating the claimed monotonicity at
`(P, rate₁, rate₂, n) = (100, 0, 1/1000, 3)`. -/
theorem C8_counterexample :
    (0:ℚ) < 100 ∧ 0 < 3 ∧ (0:ℚ) ≤ 0 ∧ (0:ℚ) ≤ 1 / 1000 ∧
      ¬ (calculate_emi 100 0 3 ≤ calculate_emi 100 (1 / 1000) 3) := by
  refine ⟨by norm_num, by norm_num, le_refl 0, by norm_num, ?_⟩
  norm_num [calculate_emi, round2, round_eq]

/-- C8 amended: for fixed principal `P > 0` and tenure `n > 0`, the EMI is
non-decreasing in the annual rate over strictly positive rates
(`0 < rate₁ <= rate₂`).  The original claim also allowed `rate₁ = 0`; there
it can fail, because the zero-rate branch returns the exact quotient `P / n`
while the positive-rate branch rounds to 2 decimals and may round below
`P / n` (see the counterexample). -/
theorem C8_amended_emi_mono (P rate₁ rate₂ : ℚ) (n : ℕ) (hP : 0 < P) (hn : 0 < n)
    (h1 : 0 < rate₁) (h12 : rate₁ ≤ rate₂) :
    calculate_emi P rate₁ n ≤ calculate_emi P rate₂ n := by
  have hr1 : 0 < rate₁ / 12 / 100 := by positivity
  have hr2 : 0 < rate₂ / 12 / 100 := by
    have : 0 < rate₂ := lt_of_lt_of_le h1 h12
    positivity
  have hrle : rate₁ / 12 / 100 ≤ rate₂ / 12 / 100 := by linarith
  have key := annuity_factor_mono (rate₁ / 12 / 100) (rate₂ / 12 / 100) n hr1 hrle hn
  have hmul := mul_le_mul_of_nonneg_left key hP.le
  simp only [calculate_emi, if_neg hr1.ne', if_neg hr2.ne']
  apply round2_mono
  calc P * (rate₁ / 12 / 100) * (1 + rate₁ / 12 / 100) ^ n /
        ((1 + rate₁ / 12 / 100) ^ n - 1)
      = P * ((rate₁ / 12 / 100) * (1 + rate₁ / 12 / 100) ^ n /
          ((1 + rate₁ / 12 / 100) ^ n - 1)) := by ring
    _ ≤ P * ((rate₂ / 12 / 100) * (1 + rate₂ / 12 / 100) ^ n /
          ((1 + rate₂ / 12 / 100) ^ n - 1)) := hmul
    _ = P * (rate₂ / 12 / 100) * (1 + rate₂ / 12 / 100) ^ n /
          ((1 + rate₂ / 12 / 100) ^ n - 1) := by ring

/-- A concrete underwriting input with a low bureau score (for the C1
witness). -/
def uwInputLowScore : UWInputs :=
  { requested_amount := some 1000, tenure_months := some 12,
    preapproved_limit := some 5000, credit_score := none,
    interest_rate := some 12, pan_number := some "A", salary := none }

/-- Witness for C1: at amount 1000 > 0 and bureau score 650 < 700 the engine
rejects with no EMI. -/
theorem C1_witness :
    (0:ℚ) < 1000 ∧
      fetched_credit_score (fun _ => some 650) uwInputLowScore < 700 ∧
      (UnderwritingAgent.process (fun _ => some 650) uwInputLowScore).decision =
        .REJECTED ∧
      (UnderwritingAgent.process (fun _ => some 650) uwInputLowScore).emi = none := by
  refine ⟨by norm_num, by decide, ?_⟩
  exact C1_credit_floor_rejects (fun _ => some 650) uwInputLowScore 1000 rfl
    (by norm_num) (by decide)

/-- A concrete underwriting input within the preapproved limit (for the C2
witness). -/
def uwInputWithin : UWInputs :=
  { requested_amount := some 300000, tenure_months := some 36,
    preapproved_limit := some 500000, credit_score := none,
    interest_rate := some (25 / 2), pan_number := some "ABCDE1234F", salary := none }

/-- Witness for C2: score 780 >= 700 and 0 < 300000 <= 500000 give APPROVED
at the requested amount. -/
theorem C2_witness :
    (0:ℚ) < 300000 ∧ (300000:ℚ) ≤ 500000 ∧ (700:ℤ) ≤ 780 ∧
      (UnderwritingAgent.process (fun _ => some 780) uwInputWithin).decision =
        .APPROVED ∧
      (UnderwritingAgent.process (fun _ => some 780) uwInputWithin).approved_amount =
        some 300000 := by
  refine ⟨by norm_num, by norm_num, by decide, ?_⟩
  exact C2_within_limit_approves (fun _ => some 780) uwInputWithin 300000 500000
    "ABCDE1234F" 780 rfl (by norm_num) rfl (by decide) rfl (by decide) rfl (by norm_num)

/-- A concrete underwriting input in the stretch zone with no known salary
(for the C6 witness). -/
def uwInputStretch : UWInputs :=
  { requested_amount := some 150000, tenure_months := some 2,
    preapproved_limit := some 100000, credit_score := none,
    interest_rate := some 0, pan_number := some "P", salary := none }

/-- Witness for C6: limit 100000 < amount 150000 <= 200000, score 750, no
salary: NEED_SALARY_SLIP with the EMI (at rate 0, tenure 2: 75000)
populated. -/
theorem C6_witness :
    (100000:ℚ) < 150000 ∧ (150000:ℚ) ≤ 2 * 100000 ∧
      (UnderwritingAgent.process (fun _ => some 750) uwInputStretch).decision =
        .NEED_SALARY_SLIP ∧
      (UnderwritingAgent.process (fun _ => some 750) uwInputStretch).emi =
        some (calculate_emi 150000 0 2) ∧
      calculate_emi 150000 0 2 = 75000 := by
  refine ⟨by norm_num, by norm_num, ?_⟩
  have h := (C6_stretch_zone (fun _ => some 750) uwInputStretch 150000 100000 "P" 750
    rfl (by norm_num) rfl (by decide) rfl (by decide) rfl (by norm_num) (by norm_num)).1 rfl
  exact ⟨h.1, h.2, by norm_num [calculate_emi]⟩

/-- Witness for C7: at P = 1200, rate = 12, n = 12 the EMI equals the spec
formula. -/
theorem C7_witness :
    (0:ℚ) < 1200 ∧ (0:ℚ) ≤ 12 ∧ 0 < 12 ∧
      calculate_emi 1200 12 12 =
        round2 (1200 * (12 / 12 / 100) * (1 + 12 / 12 / 100) ^ 12 /
          ((1 + 12 / 12 / 100) ^ 12 - 1)) := by
  refine ⟨by norm_num, by norm_num, by norm_num, ?_⟩
  exact (C7_emi_formula 1200 12 12 (by norm_num) (by norm_num) (by norm_num)).2
    (by norm_num)

/-- Witness for the amended C8: monotonicity at the concrete positive rates
0.001 <= 0.002. -/
theorem C8_witness :
    (0:ℚ) < 100 ∧ 0 < 3 ∧ (0:ℚ) < 1 / 1000 ∧ (1:ℚ) / 1000 ≤ 2 / 1000 ∧
      calculate_emi 100 (1 / 1000) 3 ≤ calculate_emi 100 (2 / 1000) 3 := by
  refine ⟨by norm_num, by norm_num, by norm_num, by norm_num, ?_⟩
  exact C8_amended_emi_mono 100 (1 / 1000) (2 / 1000) 3 (by norm_num) (by norm_num)
    (by norm_num) (by norm_num)

/-! ### The conversation orchestrator (`src/state.py`, `src/master_agent.py`)

Outbound message texts are abbreviated tags except where a claim depends on
them (the safeguard messages of `MasterAgent._check_safeguards`, which are
kept verbatim); the source interpolates customer data into the texts, which
is presentation only. -/

/-- `Stage` from `src/state.py`. -/
inductive Stage
  | INTRO
  | NEED_DISCOVERY
  | OFFER_PRESENTATION
  | KYC_VERIFICATION
  | UNDERWRITING
  | DOCUMENT_COLLECTION
  | SANCTION
  | REJECTION
  | END
  deriving DecidableEq, Repr

/-- `TerminalState` from `src/state.py`. -/
inductive TerminalState
  | LOAN_SANCTIONED
  | LOAN_REJECTED
  | ADDITIONAL_DOCUMENT_REQUIRED
  | CUSTOMER_DROPPED
  deriving DecidableEq, Repr

/-- The `.value` string of a `TerminalState` (it is a string enum). -/
def TerminalState.value : TerminalState → String
  | .LOAN_SANCTIONED => "LOAN_SANCTIONED"
  | .LOAN_REJECTED => "LOAN_REJECTED"
  | .ADDITIONAL_DOCUMENT_REQUIRED => "ADDITIONAL_DOCUMENT_REQUIRED"
  | .CUSTOMER_DROPPED => "CUSTOMER_DROPPED"

/-- `Decision` from `src/state.py`. -/
inductive Decision
  | APPROVED
  | REJECTED
  | PENDING
  | NEED_SALARY_SLIP
  deriving DecidableEq, Repr

/-- `ConversationState` from `src/state.py`, with the dataclass defaults. -/
structure ConversationState where
  stage : Stage := .INTRO
  customer_id : Option String := none
  customer_name : Option String := none
  customer_phone : Option String := none
  pan_number : Option String := none
  requested_amount : Option ℚ := none
  tenure_months : Option ℤ := none
  purpose : Option String := none
  preapproved_limit : Option ℚ := none
  credit_score : Option ℤ := none
  salary : Option ℚ := none
  employer : Option String := none
  emi : Option ℚ := none
  interest_rate : Option ℚ := none
  kyc_verified : Bool := false
  salary_slip_received : Bool := false
  decision : Option Decision := none
  rejection_reason : Option String := none
  sanction_id : Option String := none
  terminal_state : Option TerminalState := none
  last_agent_called : Option String := none
  agent_call_history : List String := []
  total_agent_calls : ℕ := 0
  messages : List (String × String) := []
  deriving DecidableEq, Repr

namespace ConversationState

/-- `ConversationState.is_terminal`. -/
def is_terminal (s : ConversationState) : Bool := s.terminal_state.isSome

/-- `ConversationState.can_call_agent`: the anti-loop safeguard check. -/
def can_call_agent (s : ConversationState) (agent_name input_hash : String) : Bool :=
  let call_signature := agent_name ++ ":" ++ input_hash
  if call_signature ∈ s.agent_call_history then false else true

/-- `ConversationState.record_agent_call`. -/
def record_agent_call (s : ConversationState) (agent_name input_hash : String) :
    ConversationState :=
  let call_signature := agent_name ++ ":" ++ input_hash
  { s with agent_call_history := s.agent_call_history ++ [call_signature],
           last_agent_called := some agent_name,
           total_agent_calls := s.total_agent_calls + 1 }

/-- `ConversationState.add_message`. -/
def add_message (s : ConversationState) (role content : String) : ConversationState :=
  { s with messages := s.messages ++ [(role, content)] }

end ConversationState

/-- The fields of `offer_mart.CustomerProfile` that the orchestrator reads
(email is never consulted by the core). -/
structure CustomerProfile where
  customer_id : String
  name : String
  phone : String
  credit_score : ℤ
  preapproved_limit : ℚ
  interest_rate : ℚ
  max_tenure_months : ℤ
  employer : Option String := none
  monthly_salary : Option ℚ := none
  kyc_verified : Bool := false
  deriving DecidableEq, Repr

/-- `offer_mart.CUSTOMER_DATABASE` (all five records). -/
def CUSTOMER_DATABASE : List (String × CustomerProfile) :=
  [("9876543210",
    { customer_id := "CUST001", name := "Rahul Sharma", phone := "9876543210",
      credit_score := 780, preapproved_limit := 500000, interest_rate := 25 / 2,
      max_tenure_months := 60, employer := some "TCS", monthly_salary := some 85000,
      kyc_verified := true }),
   ("9876543211",
    { customer_id := "CUST002", name := "Priya Patel", phone := "9876543211",
      credit_score := 820, preapproved_limit := 750000, interest_rate := 11,
      max_tenure_months := 72, employer := some "Infosys", monthly_salary := some 120000,
      kyc_verified := true }),
   ("9876543212",
    { customer_id := "CUST003", name := "Amit Kumar", phone := "9876543212",
      credit_score := 750, preapproved_limit := 300000, interest_rate := 27 / 2,
      max_tenure_months := 48, employer := some "Wipro", monthly_salary := some 65000,
      kyc_verified := true }),
   ("9876543213",
    { customer_id := "CUST004", name := "Vikram Singh", phone := "9876543213",
      credit_score := 650, preapproved_limit := 0, interest_rate := 18,
      max_tenure_months := 24, employer := some "Self-employed",
      monthly_salary := some 45000, kyc_verified := true }),
   ("9876543214",
    { customer_id := "CUST005", name := "Sneha Reddy", phone := "9876543214",
      credit_score := 760, preapproved_limit := 400000, interest_rate := 12,
      max_tenure_months := 48, employer := some "Amazon", monthly_salary := some 95000,
      kyc_verified := false })]

/-- The phone normalization shared by `offer_mart.lookup_customer_by_phone`
and `mock_apis.CRMServerAPI.fetch_customer`: drop spaces and dashes
(`strip` plus the two `replace` calls), then a leading `+91`, then a leading
`91` when 12 digits remain. -/
def normalizePhone (phone : String) : String :=
  let cs := phone.data.filter (fun c => !(c == ' ' || c == '-'))
  let cs := if cs.take 3 = ['+', '9', '1'] then cs.drop 3 else cs
  let cs := if cs.take 2 = ['9', '1'] ∧ cs.length = 12 then cs.drop 2 else cs
  String.mk cs

/-- `offer_mart.lookup_customer_by_phone`. -/
def lookup_customer_by_phone (phone : String) : Option CustomerProfile :=
  (CUSTOMER_DATABASE.find? (fun e => e.1 == normalizePhone phone)).map (·.2)

/-- The offer dictionary built by `offer_mart.get_preapproved_offer`. -/
structure Offer where
  customer_id : String
  customer_name : String
  preapproved_limit : ℚ
  interest_rate : ℚ
  max_tenure_months : ℤ
  credit_score : ℤ
  deriving DecidableEq, Repr

/-- `offer_mart.get_preapproved_offer`: `none` when the customer is unknown
or the credit score is below 700. -/
def get_preapproved_offer (phone : String) : Option Offer :=
  match lookup_customer_by_phone phone with
  | none => none
  | some c =>
    if c.credit_score < 700 then none
    else some
      { customer_id := c.customer_id, customer_name := c.name,
        preapproved_limit := c.preapproved_limit, interest_rate := c.interest_rate,
        max_tenure_months := c.max_tenure_months, credit_score := c.credit_score }

/-- The fields of `mock_apis.CRMCustomerRecord` consumed by
`VerificationAgent.process` (identity/address fields are not consulted by
the core). -/
structure CRMRecord where
  customer_id : String
  full_name : String
  kyc_verified : Bool
  employer : Option String := none
  monthly_income : Option ℚ := none
  deriving DecidableEq, Repr

/-- `mock_apis._CRM_DATABASE` (all ten records, restricted to the consumed
fields). -/
def CRM_DATABASE : List (String × CRMRecord) :=
  [("9876543210",
    { customer_id := "CUST001", full_name := "Rahul Sharma", kyc_verified := true,
      employer := some "TCS", monthly_income := some 85000 }),
   ("9876543211",
    { customer_id := "CUST002", full_name := "Priya Patel", kyc_verified := true,
      employer := some "Infosys", monthly_income := some 120000 }),
   ("9876543212",
    { customer_id := "CUST003", full_name := "Amit Kumar", kyc_verified := true,
      employer := some "Wipro", monthly_income := some 65000 }),
   ("9876543213",
    { customer_id := "CUST004", full_name := "Vikram Singh", kyc_verified := true,
      employer := some "Self-employed", monthly_income := some 45000 }),
   ("9876543214",
    { customer_id := "CUST005", full_name := "Sneha Reddy", kyc_verified := false,
      employer := some "Amazon", monthly_income := some 95000 }),
   ("9876543215",
    { customer_id := "CUST006", full_name := "Arjun Das", kyc_verified := true,
      employer := some "Swiggy", monthly_income := some 35000 }),
   ("9876543216",
    { customer_id := "CUST007", full_name := "Meera Iyer", kyc_verified := true,
      employer := some "Google", monthly_income := some 250000 }),
   ("9876543217",
    { customer_id := "CUST008", full_name := "Zainab Khan", kyc_verified := true,
      employer := some "Freelance", monthly_income := some 40000 }),
   ("9876543218",
    { customer_id := "CUST009", full_name := "Chris DSouza", kyc_verified := true,
      employer := some "StartUp Inc", monthly_income := some 70000 }),
   ("9876543219",
    { customer_id := "CUST010", full_name := "Pooja Hegde", kyc_verified := true,
      employer := some "HDFC Bank", monthly_income := some 90000 })]

/-- `mock_apis.CRMServerAPI.fetch_customer` (lookup part; the dict assembly
is flattened into `CRMRecord`). -/
def CRMServerAPI_fetch_customer (phone : String) : Option CRMRecord :=
  (CRM_DATABASE.find? (fun e => e.1 == normalizePhone phone)).map (·.2)

/-- `mock_apis._CREDIT_BUREAU_DATABASE` as the PAN-to-score map used by
`CreditBureauAPI.fetch_credit_score` (the lookup upper-cases the PAN; only
the score is consumed by the rule engine). -/
def bureauDB (pan : String) : Option ℤ :=
  ([("ABCDE1234F", (780:ℤ)), ("FGHIJ5678K", 820), ("KLMNO9012P", 750),
    ("PQRST3456Q", 650), ("UVWXY7890R", 760), ("DASAJ1234A", 710),
    ("IYERM5678B", 850), ("KHANZ9012C", 690), ("DSOUC3456D", 740),
    ("HEGDP7890E", 790)].find?
      (fun e => e.1 == String.map Char.toUpper pan)).map (·.2)

/-- The result of `VerificationAgent.process` as consumed by the
orchestrator: the `kyc_verified` flag and the `monthly_salary` / `employer`
entries of the returned `customer_profile`. -/
structure VerifResult where
  kyc_verified : Bool
  monthly_salary : Option ℚ
  employer : Option String
  deriving DecidableEq, Repr

/-- `VerificationAgent.process` from `src/agents/verification_agent.py`:
fetch the customer from the CRM by phone, fail when absent or when the KYC
status is unverified, otherwise report the employment data.  (The
pre-approved-offer side lookup in the agent is dropped: the orchestrator
never reads the `preapproved_offer` field of the result.) -/
def VerificationAgent_process (phone : Option String) : VerifResult :=
  if truthyStr phone then
    match CRMServerAPI_fetch_customer (phone.getD "") with
    | none => { kyc_verified := false, monthly_salary := none, employer := none }
    | some record =>
      if record.kyc_verified then
        { kyc_verified := true, monthly_salary := record.monthly_income,
          employer := record.employer }
      else
        { kyc_verified := false, monthly_salary := none, employer := none }
  else
    { kyc_verified := false, monthly_salary := none, employer := none }

/-- The structured output of `SalesAgent.process` consumed by the
orchestrator (the LLM-generated `sales_pitch` is presentation only). -/
structure SalesResult where
  requested_amount : Option ℚ
  tenure_months : Option ℤ
  purpose : Option String
  deriving DecidableEq, Repr

/-- The input dictionary of `SanctionAgent.process` as hashed by
`MasterAgent._handle_sanction`. -/
structure SanctionInputs where
  customer_name : Option String
  customer_id : Option String
  approved_amount : Option ℚ
  tenure_months : Option ℤ
  interest_rate : Option ℚ
  emi : Option ℚ
  deriving DecidableEq, Repr

/-- The oracle environment: the genuinely external or non-embeddable pieces
the orchestrator calls into.

* `salesExtract`: the Gemini-backed `SalesAgent.process`
  (message, rendered context) to extracted fields — an external
  text-understanding service per the spec;
* `extractSalary`: the regex heuristics of `MasterAgent._extract_salary`;
* `hashSales`/`hashVerif`/`hashUW`/`hashSanction`: the MD5-based
  `BaseAgent.compute_input_hash` of the respective input dictionaries
  (deterministic functions of the dictionaries, hence functions of the
  listed arguments);
* `sanctionId`: the timestamp/uuid `SanctionAgent.generate_sanction_id`.

All invariants below hold for every environment. -/
structure Env where
  salesExtract : String → String → SalesResult
  extractSalary : String → Option ℚ
  hashSales : String → String
  hashVerif : Option String → String
  hashUW : UWInputs → String
  hashSanction : SanctionInputs → String
  sanctionId : String

/-- Python truthiness of an optional number (`if result.get(...):`). -/
def truthyQ : Option ℚ → Bool
  | none => false
  | some q => q != 0

/-- Python truthiness of an optional integer. -/
def truthyZ : Option ℤ → Bool
  | none => false
  | some z => z != 0

/-- Boolean list prefix test (needle, haystack). -/
def isPrefixList : List Char → List Char → Bool
  | [], _ => true
  | _ :: _, [] => false
  | a :: as, b :: bs => a == b && isPrefixList as bs

/-- Python `needle in hay` substring containment on character lists. -/
def containsSub (needle : List Char) : List Char → Bool
  | [] => isPrefixList needle []
  | c :: t => isPrefixList needle (c :: t) || containsSub needle t

/-- `any(keyword in user_message.lower() for keyword in keywords)`. -/
def containsKeyword (msg : String) (keywords : List String) : Bool :=
  keywords.any (fun kw => containsSub kw.data (msg.data.map Char.toLower))

/-- An apostrophe (written via its code point). -/
def apos : String := Char.toString (Char.ofNat 39)

/-- The decline keywords scanned in `_handle_offer_presentation`. -/
def offerDeclineKeywords : List String :=
  ["no", "not interested", "decline", "cancel", "don" ++ apos ++ "t want",
   "nevermind", "forget it"]

/-- The decline keywords scanned in `_handle_document_collection`. -/
def docDeclineKeywords : List String :=
  ["no", "don" ++ apos ++ "t have", "can" ++ apos ++ "t provide", "later", "not now"]

/-- `text.replace("+91", "")`: drop every (leftmost, non-overlapping)
occurrence of `+91`. -/
def remove91 : List Char → List Char
  | '+' :: '9' :: '1' :: t => remove91 t
  | c :: t => c :: remove91 t
  | [] => []

/-- Take `n` leading digits, or fail. -/
def digitsTake : ℕ → List Char → Option (List Char)
  | 0, _ => some []
  | _ + 1, [] => none
  | n + 1, c :: t => if c.isDigit then (digitsTake n t).map (c :: ·) else none

/-- Leftmost run of 10 consecutive digits (regex `\d{10}`). -/
def findRun10 : List Char → Option (List Char)
  | [] => none
  | c :: t =>
    match digitsTake 10 (c :: t) with
    | some ds => some ds
    | none => findRun10 t

/-- `MasterAgent._extract_phone_number`: strip `+91`, dashes and spaces, then
search for 10 contiguous digits. -/
def extract_phone_number (text : String) : Option String :=
  let cleaned := (remove91 text.data).filter (fun c => !(c == '-' || c == ' '))
  (findRun10 cleaned).map String.mk

/-- The conversation-context window handed to the sales agent: the rendered
last four messages (`_handle_offer_presentation`). -/
def buildContext (msgs : List (String × String)) : String :=
  ((msgs.drop (msgs.length - 4)).map
    (fun m => m.1 ++ ": " ++ m.2 ++ "\n")).foldl (· ++ ·) ""

/-- `config.MAX_AGENT_CALLS`. -/
def MAX_AGENT_CALLS : ℕ := 6

namespace MasterAgent

open ConversationState

/-- The underwriting inputs dictionary built by
`MasterAgent._handle_underwriting`.  The source builds it without a
`pan_number` key, so the agent reads `None` there; `salary` is passed only
once a salary slip has been received. -/
def uwInputsOf (s : ConversationState) : UWInputs :=
  { requested_amount := s.requested_amount, tenure_months := s.tenure_months,
    preapproved_limit := s.preapproved_limit, credit_score := s.credit_score,
    interest_rate := s.interest_rate, pan_number := none,
    salary := if s.salary_slip_received then s.salary else none }

/-- `MasterAgent._handle_rejection`: set `LOAN_REJECTED` and `END`, emit the
stored rejection reason. -/
def handle_rejection (_env : Env) (_msg : String) (s : ConversationState) :
    String × ConversationState :=
  let s := { s with terminal_state := some .LOAN_REJECTED, stage := .END }
  ("REJECTED: " ++ s.rejection_reason.getD "NOT_APPROVED", s)

/-- `MasterAgent._handle_sanction`: hash the sanction inputs, record the call
(the source records it without a `can_call_agent` guard), obtain the
sanction identifier, set `LOAN_SANCTIONED` and `END`. -/
def handle_sanction (env : Env) (_msg : String) (s : ConversationState) :
    String × ConversationState :=
  let sanction_inputs : SanctionInputs :=
    { customer_name := s.customer_name, customer_id := s.customer_id,
      approved_amount := s.requested_amount, tenure_months := s.tenure_months,
      interest_rate := s.interest_rate, emi := s.emi }
  let input_hash := env.hashSanction sanction_inputs
  let s := s.record_agent_call "SANCTION_LETTER_GENERATOR" input_hash
  let s := { s with sanction_id := some env.sanctionId,
                    terminal_state := some .LOAN_SANCTIONED, stage := .END }
  ("SANCTIONED", s)

/-- `MasterAgent._handle_underwriting`.  The inputs dictionary is built
without a `pan_number` key (the source omits it), so the agent reads `None`
there.  Guarded by the safeguard; on `APPROVED` continues to sanction, on
`NEED_SALARY_SLIP` moves to document collection, on `REJECTED` continues to
rejection — all same-turn. -/
def handle_underwriting (env : Env) (msg : String) (s : ConversationState) :
    String × ConversationState :=
  let underwriting_inputs := uwInputsOf s
  let input_hash := env.hashUW underwriting_inputs
  if ¬ s.can_call_agent "UNDERWRITING_AGENT" input_hash then
    ("PROCESSING_ISSUE", { s with terminal_state := some .CUSTOMER_DROPPED, stage := .END })
  else
    let s := s.record_agent_call "UNDERWRITING_AGENT" input_hash
    let result := UnderwritingAgent.process bureauDB underwriting_inputs
    let s := { s with emi := result.emi }
    match result.decision with
    | .APPROVED =>
      let s := { s with decision := some .APPROVED, stage := .SANCTION }
      handle_sanction env msg s
    | .NEED_SALARY_SLIP =>
      ("NEED_SALARY_SLIP_PROMPT",
        { s with decision := some .NEED_SALARY_SLIP, stage := .DOCUMENT_COLLECTION })
    | .REJECTED =>
      let s := { s with decision := some .REJECTED,
                        rejection_reason := some result.reason, stage := .REJECTION }
      handle_rejection env msg s

/-- The state update applied by `_handle_kyc_verification` after a
successful verification: set the KYC flag, store truthy salary/employer,
advance to `UNDERWRITING`. -/
def kycUpdate (s : ConversationState) (result : VerifResult) : ConversationState :=
  let s := { s with kyc_verified := true }
  let s := if truthyQ result.monthly_salary
    then { s with salary := result.monthly_salary } else s
  let s := if truthyStr result.employer
    then { s with employer := result.employer } else s
  { s with stage := .UNDERWRITING }

/-- `MasterAgent._handle_kyc_verification`: safeguard-guarded verification
call (a repeat is `LOAN_REJECTED`); on KYC failure `LOAN_REJECTED`; on
success record salary/employer when truthy and continue to underwriting
same-turn. -/
def handle_kyc_verification (env : Env) (msg : String) (s : ConversationState) :
    String × ConversationState :=
  let input_hash := env.hashVerif s.customer_phone
  if ¬ s.can_call_agent "VERIFICATION_AGENT" input_hash then
    ("VERIFICATION_ISSUE", { s with terminal_state := some .LOAN_REJECTED, stage := .END })
  else
    let s := s.record_agent_call "VERIFICATION_AGENT" input_hash
    let result := VerificationAgent_process s.customer_phone
    if ¬ result.kyc_verified then
      ("KYC_FAILED", { s with terminal_state := some .LOAN_REJECTED, stage := .END })
    else
      handle_underwriting env msg (kycUpdate s result)

/-- The state update applied by `_handle_offer_presentation` after the sales
extraction: store each extracted field when truthy. -/
def salesUpdate (s : ConversationState) (result : SalesResult) : ConversationState :=
  let s := if truthyQ result.requested_amount
    then { s with requested_amount := result.requested_amount } else s
  let s := if truthyZ result.tenure_months
    then { s with tenure_months := result.tenure_months } else s
  if truthyStr result.purpose then { s with purpose := result.purpose } else s

/-- The tail of `_handle_offer_presentation` after the sales extraction:
store truthy fields, re-prompt for a missing amount or tenure, otherwise
advance to `KYC_VERIFICATION` and continue same-turn. -/
def offerContinue (env : Env) (msg : String) (s : ConversationState)
    (result : SalesResult) : String × ConversationState :=
  let s := salesUpdate s result
  if ¬ truthyQ s.requested_amount then ("ASK_AMOUNT", s)
  else if ¬ truthyZ s.tenure_months then ("ASK_TENURE", s)
  else
    let s := { s with stage := .KYC_VERIFICATION }
    let r := handle_kyc_verification env msg s
    ("PROCESSING: " ++ r.1, r.2)

/-- `MasterAgent._handle_offer_presentation`: decline keywords drop the
customer; the sales-extraction call is safeguard-guarded (a repeat only
re-prompts); extracted truthy fields are stored; missing amount or tenure
re-prompts; with both present, continue through KYC same-turn. -/
def handle_offer_presentation (env : Env) (msg : String) (s : ConversationState) :
    String × ConversationState :=
  if containsKeyword msg offerDeclineKeywords then
    ("OFFER_DECLINED", { s with terminal_state := some .CUSTOMER_DROPPED, stage := .END })
  else
    let input_hash := env.hashSales msg
    if ¬ s.can_call_agent "SALES_AGENT" input_hash then
      ("ASK_AMOUNT_AND_TENURE", s)
    else
      let s := s.record_agent_call "SALES_AGENT" input_hash
      let context := buildContext s.messages
      let result := env.salesExtract msg context
      offerContinue env msg s result

/-- `MasterAgent._handle_need_discovery`: require a phone (re-prompt when
absent), look up the pre-approved offer; not found splits into
`LOAN_REJECTED` (known customer with score below 700) versus
`CUSTOMER_DROPPED` (no profile); found populates identity/credit fields and
advances to `OFFER_PRESENTATION`. -/
def ndLookup (_env : Env) (_msg : String) (s : ConversationState) :
    String × ConversationState :=
  match get_preapproved_offer (s.customer_phone.getD "") with
  | none =>
    match lookup_customer_by_phone (s.customer_phone.getD "") with
    | some customer =>
      if customer.credit_score < 700 then
        ("NO_OFFER_LOW_SCORE",
          { s with terminal_state := some .LOAN_REJECTED, stage := .END })
      else
        ("PROFILE_NOT_FOUND",
          { s with terminal_state := some .CUSTOMER_DROPPED, stage := .END })
    | none =>
      ("PROFILE_NOT_FOUND",
        { s with terminal_state := some .CUSTOMER_DROPPED, stage := .END })
  | some offer =>
    let s := { s with customer_id := some offer.customer_id,
                      customer_name := some offer.customer_name,
                      preapproved_limit := some offer.preapproved_limit,
                      credit_score := some offer.credit_score,
                      interest_rate := some offer.interest_rate,
                      stage := .OFFER_PRESENTATION }
    ("OFFER_DETAILS", s)

def handle_need_discovery (env : Env) (msg : String) (s : ConversationState) :
    String × ConversationState :=
  if truthyStr s.customer_phone then ndLookup env msg s
  else
    match extract_phone_number msg with
    | some phone => ndLookup env msg { s with customer_phone := some phone }
    | none => ("ASK_PHONE_AGAIN", s)

/-- `MasterAgent._handle_intro`: a phone in the first message jumps straight
into need discovery for the same message; otherwise greet and advance. -/
def handle_intro (env : Env) (msg : String) (s : ConversationState) :
    String × ConversationState :=
  match extract_phone_number msg with
  | some phone =>
    let s := { s with customer_phone := some phone, stage := .NEED_DISCOVERY }
    handle_need_discovery env msg s
  | none =>
    ("GREETING_ASK_PHONE", { s with stage := .NEED_DISCOVERY })

/-- `MasterAgent._handle_document_collection`: decline keywords drop the
customer; a parsed salary (or the salary on file after an upload keyword)
re-runs underwriting same-turn; otherwise `ADDITIONAL_DOCUMENT_REQUIRED`. -/
def handle_document_collection (env : Env) (msg : String) (s : ConversationState) :
    String × ConversationState :=
  if containsKeyword msg docDeclineKeywords then
    ("DOC_DECLINED", { s with terminal_state := some .CUSTOMER_DROPPED, stage := .END })
  else
    let salary := env.extractSalary msg
    if truthyQ salary then
      let s := { s with salary := salary, salary_slip_received := true,
                        stage := .UNDERWRITING }
      handle_underwriting env msg s
    else if containsKeyword msg ["uploaded", "attached", "salary slip"] then
      match lookup_customer_by_phone (s.customer_phone.getD "") with
      | some customer =>
        if truthyQ customer.monthly_salary then
          let s := { s with salary := customer.monthly_salary,
                            salary_slip_received := true, stage := .UNDERWRITING }
          handle_underwriting env msg s
        else
          ("NEED_SALARY_DETAILS",
            { s with terminal_state := some .ADDITIONAL_DOCUMENT_REQUIRED, stage := .END })
      | none =>
        ("NEED_SALARY_DETAILS",
          { s with terminal_state := some .ADDITIONAL_DOCUMENT_REQUIRED, stage := .END })
    else
      ("NEED_SALARY_DETAILS",
        { s with terminal_state := some .ADDITIONAL_DOCUMENT_REQUIRED, stage := .END })

/-- `MasterAgent._handle_end`: fixed closing text, no state change. -/
def handle_end (_env : Env) (_msg : String) (s : ConversationState) :
    String × ConversationState :=
  if s.terminal_state = some .LOAN_SANCTIONED then ("SANCTIONED_CLOSING", s)
  else ("ENDED_CLOSING", s)

/-- `MasterAgent._route_to_handler`. -/
def route_to_handler (env : Env) (msg : String) (s : ConversationState) :
    String × ConversationState :=
  match s.stage with
  | .INTRO => handle_intro env msg s
  | .NEED_DISCOVERY => handle_need_discovery env msg s
  | .OFFER_PRESENTATION => handle_offer_presentation env msg s
  | .KYC_VERIFICATION => handle_kyc_verification env msg s
  | .UNDERWRITING => handle_underwriting env msg s
  | .DOCUMENT_COLLECTION => handle_document_collection env msg s
  | .SANCTION => handle_sanction env msg s
  | .REJECTION => handle_rejection env msg s
  | .END => handle_end env msg s

/-- `MasterAgent._check_safeguards`: when terminal, report the terminal
state; when the call budget is exhausted, force `CUSTOMER_DROPPED` and
`END`.  Returns the diagnostic and the (possibly updated) state, or `none`
when processing may proceed. -/
def check_safeguards (s : ConversationState) : Option (String × ConversationState) :=
  match s.terminal_state with
  | some t => some ("Conversation ended: " ++ t.value, s)
  | none =>
    if MAX_AGENT_CALLS ≤ s.total_agent_calls then
      some ("Maximum agent calls exceeded. Conversation ended.",
        { s with terminal_state := some .CUSTOMER_DROPPED, stage := .END })
    else none

/-- `MasterAgent.process_message`: append the user message, run the
safeguards (early return on trigger), route to the stage handler, append
the assistant response. -/
def process_message (env : Env) (msg : String) (s : ConversationState) :
    String × ConversationState :=
  let s := s.add_message "user" msg
  match check_safeguards s with
  | some r => r
  | none =>
    let r := route_to_handler env msg s
    (r.1, r.2.add_message "assistant" r.1)

end MasterAgent

/-- The state of a fresh conversation (`MasterAgent.initialize`). -/
def initialState : ConversationState := {}

/-- States reachable from a fresh conversation by any sequence of
`process_message` calls, under any oracle environment. -/
inductive Reachable : ConversationState → Prop
  | init : Reachable initialState
  | step (env : Env) (msg : String) {s : ConversationState} :
      Reachable s → Reachable (MasterAgent.process_message env msg s).2

/-! ### Safeguard and budget invariants -/

/-- When no PAN is supplied — as in every orchestrated call, because
`_handle_underwriting` builds the inputs without a `pan_number` key — the
rule engine rejects with no EMI, whatever the other inputs. -/
theorem uw_no_pan_rejects (bureau : String → Option ℤ) (i : UWInputs)
    (h : i.pan_number = none) :
    (UnderwritingAgent.process bureau i).decision = .REJECTED ∧
      (UnderwritingAgent.process bureau i).emi = none := by
  unfold UnderwritingAgent.process
  cases hA : i.requested_amount with
  | none => exact ⟨rfl, rfl⟩
  | some a =>
    by_cases ha : a ≤ 0
    · simp [hA, ha]
    · simp [hA, ha, h, truthyStr]

theorem can_call_agent_true_iff (s : ConversationState) (n h : String) :
    s.can_call_agent n h = true ↔ (n ++ ":" ++ h) ∉ s.agent_call_history := by
  unfold ConversationState.can_call_agent
  by_cases h : (n ++ ":" ++ h) ∈ s.agent_call_history <;> simp_all

/-- What one stage-handler invocation may do to the safeguard bookkeeping:
append at most `k` fresh signatures (preserving `Nodup`), keep the counter
in sync, add at most one call when it leaves the conversation non-terminal,
and only move to `END` together with a terminal state (never to
`SANCTION`). -/
def StepOK (k : ℕ) (s s' : ConversationState) : Prop :=
  (∃ new : List String,
    s'.agent_call_history = s.agent_call_history ++ new ∧
    s'.total_agent_calls = s.total_agent_calls + new.length ∧
    new.length ≤ k ∧
    (s.agent_call_history.Nodup → s'.agent_call_history.Nodup)) ∧
  (s'.terminal_state = none →
    s'.total_agent_calls ≤ s.total_agent_calls + 1 ∧
    (s'.stage = s.stage ∨ (s'.stage ≠ .END ∧ s'.stage ≠ .SANCTION))) ∧
  (s'.terminal_state ≠ none → s'.stage = .END) ∧
  (s'.stage = s.stage ∨ s'.stage ≠ .SANCTION)

theorem stepOK_of_eq {k : ℕ} {s s' : ConversationState}
    (h1 : s'.agent_call_history = s.agent_call_history)
    (h2 : s'.total_agent_calls = s.total_agent_calls)
    (h3 : s'.terminal_state = none) (h4 : s'.stage = s.stage) :
    StepOK k s s' := by
  refine ⟨⟨[], by simp [h1], by simp [h2], Nat.zero_le _, fun h => h1 ▸ h⟩,
    fun _ => ⟨by omega, Or.inl h4⟩, fun hc => absurd h3 (by simp_all), Or.inl h4⟩

theorem stepOK_terminal {k : ℕ} {s s' : ConversationState}
    (h1 : s'.agent_call_history = s.agent_call_history)
    (h2 : s'.total_agent_calls = s.total_agent_calls)
    (h3 : s'.terminal_state ≠ none) (h4 : s'.stage = .END) :
    StepOK k s s' := by
  refine ⟨⟨[], by simp [h1], by simp [h2], Nat.zero_le _, fun h => h1 ▸ h⟩,
    fun hc => absurd hc h3, fun _ => h4, Or.inr (by rw [h4]; intro hc; cases hc)⟩

theorem stepOK_record_terminal {k : ℕ} {s s' : ConversationState} (sig : String)
    (hk : 1 ≤ k) (hfresh : sig ∉ s.agent_call_history)
    (h1 : s'.agent_call_history = s.agent_call_history ++ [sig])
    (h2 : s'.total_agent_calls = s.total_agent_calls + 1)
    (h3 : s'.terminal_state ≠ none) (h4 : s'.stage = .END) :
    StepOK k s s' := by
  refine ⟨⟨[sig], h1, by simp [h2], hk, fun h => ?_⟩,
    fun hc => absurd hc h3, fun _ => h4, Or.inr (by rw [h4]; intro hc; cases hc)⟩
  rw [h1, List.nodup_append]
  exact ⟨h, List.nodup_singleton sig, by simpa using hfresh⟩

theorem stepOK_record_prompt {s s' : ConversationState} (sig : String)
    (hfresh : sig ∉ s.agent_call_history)
    (h1 : s'.agent_call_history = s.agent_call_history ++ [sig])
    (h2 : s'.total_agent_calls = s.total_agent_calls + 1)
    (h3 : s'.terminal_state = none) (h4 : s'.stage = s.stage) :
    StepOK 1 s s' := by
  refine ⟨⟨[sig], h1, by simp [h2], le_refl 1, fun h => ?_⟩,
    fun _ => ⟨by omega, Or.inl h4⟩, fun hc => absurd h3 (by simp_all), Or.inl h4⟩
  rw [h1, List.nodup_append]
  exact ⟨h, List.nodup_singleton sig, by simpa using hfresh⟩

/-- Composing a pure (bookkeeping-free) state update with a later step. -/
theorem stepOK_comp_pure {k : ℕ} {s s₁ s' : ConversationState}
    (h1 : s₁.agent_call_history = s.agent_call_history)
    (h2 : s₁.total_agent_calls = s.total_agent_calls)
    (he : s₁.stage ≠ .END) (hs : s₁.stage ≠ .SANCTION)
    (hnext : StepOK k s₁ s') : StepOK k s s' := by
  obtain ⟨⟨new, ha, hb, hc, hd⟩, hnt, ht, hst⟩ := hnext
  refine ⟨⟨new, by rw [ha, h1], by rw [hb, h2], hc, fun h => hd (h1 ▸ h)⟩,
    fun hn => ⟨by have := (hnt hn).1; omega, ?_⟩, ht, ?_⟩
  · rcases (hnt hn).2 with h | h
    · exact Or.inr ⟨h ▸ he, h ▸ hs⟩
    · exact Or.inr h
  · rcases hst with h | h
    · exact Or.inr (h ▸ hs)
    · exact Or.inr h

/-- Composing a fresh recorded call with a later step that terminates the
conversation. -/
theorem stepOK_comp_record {k : ℕ} {s s₁ s' : ConversationState} (sig : String)
    (hfresh : sig ∉ s.agent_call_history)
    (h1 : s₁.agent_call_history = s.agent_call_history ++ [sig])
    (h2 : s₁.total_agent_calls = s.total_agent_calls + 1)
    (hnext : StepOK k s₁ s') (hterm : s'.terminal_state ≠ none) :
    StepOK (k + 1) s s' := by
  obtain ⟨⟨new, ha, hb, hc, hd⟩, _, ht, _⟩ := hnext
  have hstage := ht hterm
  refine ⟨⟨sig :: new, by rw [ha, h1]; simp, by rw [hb, h2]; simp; omega,
    by simpa using hc, fun h => ?_⟩,
    fun hc => absurd hc hterm, ht, Or.inr (by rw [hstage]; intro hc; cases hc)⟩
  apply hd
  rw [h1, List.nodup_append]
  exact ⟨h, List.nodup_singleton sig, by simpa using hfresh⟩

open MasterAgent

/-- One underwriting turn: at most one recorded call, and the conversation
always terminates (the orchestrated inputs carry no PAN, so the engine
rejects and the rejection handler runs same-turn; a blocked repeat drops the
customer). -/
theorem underwriting_spec (env : Env) (m : String) (s : ConversationState)
    (hterm : s.terminal_state = none) :
    StepOK 1 s (handle_underwriting env m s).2 ∧
      (handle_underwriting env m s).2.terminal_state ≠ none := by
  have hrej := uw_no_pan_rejects bureauDB (uwInputsOf s) rfl
  unfold handle_underwriting
  by_cases hcc : s.can_call_agent "UNDERWRITING_AGENT" (env.hashUW (uwInputsOf s)) = true
  · rw [if_neg (not_not_intro hcc)]
    simp only [hrej.1]
    refine ⟨stepOK_record_terminal ("UNDERWRITING_AGENT" ++ ":" ++
        env.hashUW (uwInputsOf s)) (le_refl 1)
        ((can_call_agent_true_iff s _ _).mp hcc) ?_ ?_ ?_ ?_, ?_⟩ <;>
      simp [ConversationState.record_agent_call, handle_rejection]
  · rw [if_pos (by simpa using hcc)]
    exact ⟨stepOK_terminal (by simp) (by simp) (by simp) (by simp), by simp⟩

theorem kycUpdate_proj (s : ConversationState) (r : VerifResult) :
    (kycUpdate s r).agent_call_history = s.agent_call_history ∧
    (kycUpdate s r).total_agent_calls = s.total_agent_calls ∧
    (kycUpdate s r).terminal_state = s.terminal_state ∧
    (kycUpdate s r).stage = .UNDERWRITING := by
  unfold kycUpdate
  split <;> split <;> simp

theorem salesUpdate_proj (s : ConversationState) (r : SalesResult) :
    (salesUpdate s r).agent_call_history = s.agent_call_history ∧
    (salesUpdate s r).total_agent_calls = s.total_agent_calls ∧
    (salesUpdate s r).terminal_state = s.terminal_state ∧
    (salesUpdate s r).stage = s.stage := by
  unfold salesUpdate
  split <;> split <;> split <;> simp

/-- One KYC turn: at most two recorded calls (verification, then the
underwriting continuation), and the conversation always terminates. -/
theorem kyc_spec (env : Env) (m : String) (s : ConversationState)
    (hterm : s.terminal_state = none) :
    StepOK 2 s (handle_kyc_verification env m s).2 ∧
      (handle_kyc_verification env m s).2.terminal_state ≠ none := by
  unfold handle_kyc_verification
  by_cases hcc : s.can_call_agent "VERIFICATION_AGENT" (env.hashVerif s.customer_phone) = true
  · rw [if_neg (not_not_intro hcc)]
    by_cases hv : (VerificationAgent_process s.customer_phone).kyc_verified = true
    · rw [if_neg (by simpa using not_not_intro hv)]
      obtain ⟨hh, ht2, htm, hstg⟩ := kycUpdate_proj
        (s.record_agent_call "VERIFICATION_AGENT" (env.hashVerif s.customer_phone))
        (VerificationAgent_process
          (s.record_agent_call "VERIFICATION_AGENT"
            (env.hashVerif s.customer_phone)).customer_phone)
      have h2term : (kycUpdate
          (s.record_agent_call "VERIFICATION_AGENT" (env.hashVerif s.customer_phone))
          (VerificationAgent_process
            (s.record_agent_call "VERIFICATION_AGENT"
              (env.hashVerif s.customer_phone)).customer_phone)).terminal_state = none := by
        rw [htm]; simpa [ConversationState.record_agent_call] using hterm
      obtain ⟨hOK, hT⟩ := underwriting_spec env m _ h2term
      refine ⟨stepOK_comp_record ("VERIFICATION_AGENT" ++ ":" ++
          env.hashVerif s.customer_phone)
          ((can_call_agent_true_iff s _ _).mp hcc) rfl rfl
          (stepOK_comp_pure hh ht2 (by rw [hstg]; intro hc; cases hc)
            (by rw [hstg]; intro hc; cases hc) hOK) hT, hT⟩
    · rw [if_pos (by simpa using hv)]
      refine ⟨stepOK_record_terminal ("VERIFICATION_AGENT" ++ ":" ++
          env.hashVerif s.customer_phone) (by omega)
          ((can_call_agent_true_iff s _ _).mp hcc) ?_ ?_ ?_ ?_, ?_⟩ <;>
        simp [ConversationState.record_agent_call]
  · rw [if_pos (by simpa using hcc)]
    exact ⟨stepOK_terminal (by simp) (by simp) (by simp) (by simp), by simp⟩

theorem stepOK_mono {k k' : ℕ} {s s' : ConversationState} (hkk : k ≤ k')
    (h : StepOK k s s') : StepOK k' s s' := by
  obtain ⟨⟨new, ha, hb, hc, hd⟩, h2, h3, h4⟩ := h
  exact ⟨⟨new, ha, hb, le_trans hc hkk, hd⟩, h2, h3, h4⟩

theorem stepOK_prompt_move {k : ℕ} {s s' : ConversationState}
    (h1 : s'.agent_call_history = s.agent_call_history)
    (h2 : s'.total_agent_calls = s.total_agent_calls)
    (h3 : s'.terminal_state = none)
    (h4 : s'.stage ≠ .END) (h5 : s'.stage ≠ .SANCTION) :
    StepOK k s s' := by
  refine ⟨⟨[], by simp [h1], by simp [h2], Nat.zero_le _, fun h => h1 ▸ h⟩,
    fun _ => ⟨by omega, Or.inr ⟨h4, h5⟩⟩, fun hc => absurd h3 (by simp_all), Or.inr h5⟩

/-- Composing a pure state update with a later step that terminates the
conversation (no stage side conditions needed). -/
theorem stepOK_comp_pure_terminal {k : ℕ} {s s₁ s' : ConversationState}
    (h1 : s₁.agent_call_history = s.agent_call_history)
    (h2 : s₁.total_agent_calls = s.total_agent_calls)
    (hnext : StepOK k s₁ s') (hterm : s'.terminal_state ≠ none) : StepOK k s s' := by
  obtain ⟨⟨new, ha, hb, hc, hd⟩, _, ht, _⟩ := hnext
  exact ⟨⟨new, by rw [ha, h1], by rw [hb, h2], hc, fun h => hd (h1 ▸ h)⟩,
    fun hc => absurd hc hterm, ht, Or.inr (by rw [ht hterm]; intro hc; cases hc)⟩

/-- The tail of an offer-presentation turn: at most two further recorded
calls; when it does not terminate the conversation it records nothing and
keeps the stage. -/
theorem offerContinue_spec (env : Env) (m : String) (s : ConversationState)
    (r : SalesResult) (hterm : s.terminal_state = none) :
    StepOK 2 s (offerContinue env m s r).2 ∧
      ((offerContinue env m s r).2.terminal_state = none →
        (offerContinue env m s r).2.total_agent_calls = s.total_agent_calls ∧
        (offerContinue env m s r).2.stage = s.stage) := by
  obtain ⟨hh, ht2, htm, hstg⟩ := salesUpdate_proj s r
  unfold offerContinue
  by_cases hA : truthyQ (salesUpdate s r).requested_amount = true
  · rw [if_neg (not_not_intro hA)]
    by_cases hB : truthyZ (salesUpdate s r).tenure_months = true
    · rw [if_neg (not_not_intro hB)]
      have h3term : ({ salesUpdate s r with stage := Stage.KYC_VERIFICATION } :
          ConversationState).terminal_state = none := by
        simpa [htm] using hterm
      obtain ⟨hOK, hT⟩ := kyc_spec env m _ h3term
      have hc1 : StepOK 2 (salesUpdate s r)
          (handle_kyc_verification env m
            { salesUpdate s r with stage := Stage.KYC_VERIFICATION }).2 :=
        stepOK_comp_pure_terminal (by simp) (by simp) hOK hT
      exact ⟨stepOK_comp_pure_terminal hh ht2 hc1 hT, fun hn => absurd hn hT⟩
    · rw [if_pos (by simpa using hB)]
      exact ⟨stepOK_of_eq hh ht2 (htm.trans hterm) hstg,
        fun _ => ⟨ht2, hstg⟩⟩
  · rw [if_pos (by simpa using hA)]
    exact ⟨stepOK_of_eq hh ht2 (htm.trans hterm) hstg,
      fun _ => ⟨ht2, hstg⟩⟩

/-- One offer-presentation turn: at most three recorded calls (sales, then
possibly verification and underwriting same-turn). -/
theorem offer_spec (env : Env) (m : String) (s : ConversationState)
    (hterm : s.terminal_state = none) :
    StepOK 3 s (handle_offer_presentation env m s).2 := by
  unfold handle_offer_presentation
  by_cases hd : containsKeyword m offerDeclineKeywords = true
  · rw [if_pos hd]
    exact stepOK_terminal (by simp) (by simp) (by simp) (by simp)
  · rw [if_neg hd]
    by_cases hcc : s.can_call_agent "SALES_AGENT" (env.hashSales m) = true
    · rw [if_neg (not_not_intro hcc)]
      have hfresh := (can_call_agent_true_iff s "SALES_AGENT" (env.hashSales m)).mp hcc
      obtain ⟨hOK, hEx⟩ := offerContinue_spec env m
        (s.record_agent_call "SALES_AGENT" (env.hashSales m))
        (env.salesExtract m (buildContext
          (s.record_agent_call "SALES_AGENT" (env.hashSales m)).messages))
        (by simpa [ConversationState.record_agent_call] using hterm)
      obtain ⟨⟨new, ha, hb, hc, hd2⟩, h2, h3, h4⟩ := hOK
      refine ⟨⟨("SALES_AGENT" ++ ":" ++ env.hashSales m) :: new, ?_, ?_, ?_, ?_⟩,
        ?_, h3, ?_⟩
      · rw [ha]; simp [ConversationState.record_agent_call]
      · rw [hb]; simp [ConversationState.record_agent_call]; omega
      · simp only [List.length_cons]; omega
      · intro h
        apply hd2
        simp only [ConversationState.record_agent_call]
        rw [List.nodup_append]
        exact ⟨h, List.nodup_singleton _, by simpa using hfresh⟩
      · intro hn
        obtain ⟨he1, he2⟩ := hEx hn
        refine ⟨?_, Or.inl ?_⟩
        · rw [he1]; simp [ConversationState.record_agent_call]
        · rw [he2]; simp [ConversationState.record_agent_call]
      · rcases h4 with h | h
        · exact Or.inl (by rw [h]; simp [ConversationState.record_agent_call])
        · exact Or.inr h
    · rw [if_pos (by simpa using hcc)]
      exact stepOK_of_eq rfl rfl hterm rfl

theorem stepOK_comp_same {k : ℕ} {s s₁ s' : ConversationState}
    (h1 : s₁.agent_call_history = s.agent_call_history)
    (h2 : s₁.total_agent_calls = s.total_agent_calls)
    (h3 : s₁.stage = s.stage)
    (hnext : StepOK k s₁ s') : StepOK k s s' := by
  obtain ⟨⟨new, ha, hb, hc, hd⟩, hA, hB, hC⟩ := hnext
  refine ⟨⟨new, by rw [ha, h1], by rw [hb, h2], hc, fun h => hd (h1 ▸ h)⟩,
    fun hn => ⟨by have := (hA hn).1; omega, ?_⟩, hB, ?_⟩
  · rcases (hA hn).2 with h | h
    · exact Or.inl (h.trans h3)
    · exact Or.inr h
  · rcases hC with h | h
    · exact Or.inl (h.trans h3)
    · exact Or.inr h

/-- The lookup part of a need-discovery turn: no recorded calls. -/
theorem ndLookup_spec (env : Env) (m : String) (s : ConversationState)
    (hterm : s.terminal_state = none) :
    StepOK 0 s (ndLookup env m s).2 := by
  unfold ndLookup
  split
  · split
    · split
      · exact stepOK_terminal (by simp) (by simp) (by simp) (by simp)
      · exact stepOK_terminal (by simp) (by simp) (by simp) (by simp)
    · exact stepOK_terminal (by simp) (by simp) (by simp) (by simp)
  · exact stepOK_prompt_move (by simp) (by simp) (by simpa using hterm)
      (by simp) (by simp)

/-- One need-discovery turn: no recorded calls. -/
theorem nd_spec (env : Env) (m : String) (s : ConversationState)
    (hterm : s.terminal_state = none) :
    StepOK 0 s (handle_need_discovery env m s).2 := by
  unfold handle_need_discovery
  by_cases hph : truthyStr s.customer_phone = true
  · rw [if_pos hph]
    exact ndLookup_spec env m s hterm
  · rw [if_neg hph]
    cases hx : extract_phone_number m with
    | none => exact stepOK_of_eq rfl rfl hterm rfl
    | some phone =>
      exact stepOK_comp_same (by simp) (by simp) (by simp)
        (ndLookup_spec env m _ (by simpa using hterm))

/-- One intro turn: no recorded calls. -/
theorem intro_spec (env : Env) (m : String) (s : ConversationState)
    (hterm : s.terminal_state = none) :
    StepOK 0 s (handle_intro env m s).2 := by
  unfold handle_intro
  cases hx : extract_phone_number m with
  | none =>
    exact stepOK_prompt_move (by simp) (by simp) (by simpa using hterm)
      (by simp) (by simp)
  | some phone =>
    exact stepOK_comp_pure (by simp) (by simp) (by simp) (by simp)
      (nd_spec env m _ (by simpa using hterm))

/-- One document-collection turn: at most one recorded call, and the
conversation always terminates. -/
theorem doc_spec (env : Env) (m : String) (s : ConversationState)
    (hterm : s.terminal_state = none) :
    StepOK 1 s (handle_document_collection env m s).2 ∧
      (handle_document_collection env m s).2.terminal_state ≠ none := by
  unfold handle_document_collection
  by_cases hdk : containsKeyword m docDeclineKeywords = true
  · rw [if_pos hdk]
    exact ⟨stepOK_terminal (by simp) (by simp) (by simp) (by simp), by simp⟩
  · rw [if_neg hdk]
    by_cases hsal : truthyQ (env.extractSalary m) = true
    · rw [if_pos hsal]
      obtain ⟨hOK, hT⟩ := underwriting_spec env m
        { s with salary := env.extractSalary m, salary_slip_received := true,
                 stage := .UNDERWRITING } (by simpa using hterm)
      exact ⟨stepOK_comp_pure_terminal (by simp) (by simp) hOK hT, hT⟩
    · rw [if_neg hsal]
      by_cases hup : containsKeyword m ["uploaded", "attached", "salary slip"] = true
      · rw [if_pos hup]
        split
        next customer hc =>
          split
          next hms =>
            obtain ⟨hOK, hT⟩ := underwriting_spec env m
              { s with salary := customer.monthly_salary, salary_slip_received := true,
                       stage := .UNDERWRITING } (by simpa using hterm)
            exact ⟨stepOK_comp_pure_terminal (by simp) (by simp) hOK hT, hT⟩
          next hms =>
            exact ⟨stepOK_terminal (by simp) (by simp) (by simp) (by simp), by simp⟩
        next hc =>
          exact ⟨stepOK_terminal (by simp) (by simp) (by simp) (by simp), by simp⟩
      · rw [if_neg hup]
        exact ⟨stepOK_terminal (by simp) (by simp) (by simp) (by simp), by simp⟩

/-- One rejection turn: no recorded calls, always terminal. -/
theorem rejection_spec (env : Env) (m : String) (s : ConversationState) :
    StepOK 0 s (handle_rejection env m s).2 ∧
      (handle_rejection env m s).2.terminal_state ≠ none := by
  unfold handle_rejection
  exact ⟨stepOK_terminal (by simp) (by simp) (by simp) (by simp), by simp⟩

/-- Routing a non-terminal, non-`END`, non-`SANCTION` state to its stage
handler records at most three calls and satisfies the step contract. -/
theorem route_spec (env : Env) (m : String) (s : ConversationState)
    (hterm : s.terminal_state = none) (hE : s.stage ≠ .END)
    (hS : s.stage ≠ .SANCTION) :
    StepOK 3 s (route_to_handler env m s).2 := by
  unfold route_to_handler
  cases hst : s.stage with
  | INTRO => exact stepOK_mono (by omega) (intro_spec env m s hterm)
  | NEED_DISCOVERY => exact stepOK_mono (by omega) (nd_spec env m s hterm)
  | OFFER_PRESENTATION => exact offer_spec env m s hterm
  | KYC_VERIFICATION => exact stepOK_mono (by omega) (kyc_spec env m s hterm).1
  | UNDERWRITING => exact stepOK_mono (by omega) (underwriting_spec env m s hterm).1
  | DOCUMENT_COLLECTION => exact stepOK_mono (by omega) (doc_spec env m s hterm).1
  | SANCTION => exact absurd hst hS
  | REJECTION => exact stepOK_mono (by omega) (rejection_spec env m s).1
  | END => exact absurd hst hE

/-- The conversation-level inductive invariant: the call counter mirrors the
history length, signatures are unrepeated, the counter is at most
`MAX_AGENT_CALLS` while non-terminal and at most `MAX_AGENT_CALLS + 2`
overall (one turn that starts just under the budget can record up to three
calls), a terminal state coincides with stage `END`, and the transient
`SANCTION` stage never persists across turns. -/
def Inv (s : ConversationState) : Prop :=
  s.total_agent_calls = s.agent_call_history.length ∧
  s.agent_call_history.Nodup ∧
  (s.terminal_state = none → s.total_agent_calls ≤ MAX_AGENT_CALLS) ∧
  s.total_agent_calls ≤ MAX_AGENT_CALLS + 2 ∧
  (s.terminal_state ≠ none ↔ s.stage = .END) ∧
  s.stage ≠ .SANCTION

theorem Inv_init : Inv initialState := by
  refine ⟨rfl, List.nodup_nil, fun _ => ?_, ?_, ?_, ?_⟩ <;>
    simp [initialState, MAX_AGENT_CALLS]

theorem Inv_step (env : Env) (m : String) (s : ConversationState) (h : Inv s) :
    Inv (MasterAgent.process_message env m s).2 := by
  have hU : Inv (s.add_message "user" m) := by
    obtain ⟨h1, h2, h3, h4, h5, h6⟩ := h
    exact ⟨h1, h2, h3, h4, h5, h6⟩
  simp only [MasterAgent.process_message]
  generalize s.add_message "user" m = sU at hU ⊢
  obtain ⟨h1, h2, h3, h4, h5, h6⟩ := hU
  unfold MasterAgent.check_safeguards
  cases hts : sU.terminal_state with
  | some t =>
    exact ⟨h1, h2, h3, h4, h5, h6⟩
  | none =>
    by_cases hbud : MAX_AGENT_CALLS ≤ sU.total_agent_calls
    · rw [if_pos hbud]
      refine ⟨h1, h2, ?_, ?_, ?_, ?_⟩
      · intro hn; simp at hn
      · show sU.total_agent_calls ≤ MAX_AGENT_CALLS + 2
        have := h3 hts
        omega
      · exact ⟨fun _ => rfl, fun _ => by simp⟩
      · show Stage.END ≠ Stage.SANCTION
        simp
    · rw [if_neg hbud]
      have hE : sU.stage ≠ .END := fun hEnd => absurd (h5.mpr hEnd) (by simp [hts])
      obtain ⟨⟨new, ha, hb, hc, hd⟩, hA, hB, hC⟩ := route_spec env m sU hts hE h6
      refine ⟨?_, ?_, ?_, ?_, ?_, ?_⟩
      · show (MasterAgent.route_to_handler env m sU).2.total_agent_calls =
          (MasterAgent.route_to_handler env m sU).2.agent_call_history.length
        rw [hb, ha]
        simp [h1]
      · show (MasterAgent.route_to_handler env m sU).2.agent_call_history.Nodup
        exact hd h2
      · intro hn
        show (MasterAgent.route_to_handler env m sU).2.total_agent_calls ≤ MAX_AGENT_CALLS
        have hle := (hA hn).1
        simp only [MAX_AGENT_CALLS] at *
        omega
      · show (MasterAgent.route_to_handler env m sU).2.total_agent_calls ≤
          MAX_AGENT_CALLS + 2
        rw [hb]
        have := h3 hts
        simp only [MAX_AGENT_CALLS] at *
        omega
      · constructor
        · intro hn
          exact hB hn
        · intro hEnd hn
          rcases (hA hn).2 with hcase | hcase
          · exact hE (hcase ▸ hEnd)
          · exact hcase.1 hEnd
      · rcases hC with hcase | hcase
        · exact hcase ▸ h6
        · exact hcase

theorem Inv_reachable {s : ConversationState} (h : Reachable s) : Inv s := by
  induction h with
  | init => exact Inv_init
  | step env msg hr ih => exact Inv_step env msg _ ih

/-! ### Concrete traces -/

/-- A concrete oracle environment for the traces below.  `hashSales` stands
for the MD5 digest of the sales input dictionary: on the five messages used
here the real digests are pairwise distinct (`36d1ea39`, `05a2b159`,
`5dd3ed6e`, `e9a0f302`, `f33f910c`), so using the message itself is a
faithful stand-in.  The sales oracle extracts fields only from the final
message, consistent with the best-effort extraction contract. -/
def exEnv : Env :=
  { salesExtract := fun m _ =>
      if m = "i want 300000 for 36 months" then
        { requested_amount := some 300000, tenure_months := some 36, purpose := none }
      else { requested_amount := none, tenure_months := none, purpose := none },
    extractSalary := fun _ => none,
    hashSales := fun m => m,
    hashVerif := fun _ => "HV",
    hashUW := fun _ => "HU",
    hashSanction := fun _ => "HS",
    sanctionId := "SID" }

/-- Run a list of inbound messages from a fresh conversation. -/
def runTrace (env : Env) (msgs : List String) : ConversationState :=
  msgs.foldl (fun s m => (MasterAgent.process_message env m s).2) initialState

theorem runTrace_reachable (env : Env) (msgs : List String) :
    Reachable (runTrace env msgs) := by
  have key : ∀ (l : List String) (s : ConversationState), Reachable s →
      Reachable (l.foldl (fun s m => (MasterAgent.process_message env m s).2) s) := by
    intro l
    induction l with
    | nil => exact fun s hs => hs
    | cons m t ih => exact fun s hs => ih _ (Reachable.step env m hs)
  exact key msgs initialState Reachable.init

/-- Six turns against the mock stores for customer 9876543210 (Rahul
Sharma, score 780): one phone turn, four sales prompts that extract
nothing, then one message that extracts amount and tenure, cascading
through sales, verification and underwriting in a single turn.  The turn
starts with `total_agent_calls = 4 < 6`, so the safeguard passes, and the
turn records three more calls. -/
def budgetTrace : ConversationState :=
  runTrace exEnv ["hi 9876543210", "m1", "m2", "m3", "m4",
    "i want 300000 for 36 months"]

/-- One turn with an unknown phone number: the conversation ends immediately
with `CUSTOMER_DROPPED` at stage `END`; two messages are stored. -/
def dropTrace : ConversationState :=
  runTrace exEnv ["hi 1234567890"]

/-! ### Claim theorems for the orchestrator -/

/-- C3 counterexample: a reachable conversation state whose
`total_agent_calls` is 7 > `MAX_AGENT_CALLS` = 6, with
`terminal_state = LOAN_REJECTED` rather than `CUSTOMER_DROPPED` — the
safeguard is only checked at the start of a turn, and one offer turn can
record three calls. -/
theorem C3_counterexample :
    Reachable budgetTrace ∧
      budgetTrace.total_agent_calls = 7 ∧
      MAX_AGENT_CALLS < budgetTrace.total_agent_calls ∧
      budgetTrace.terminal_state = some .LOAN_REJECTED ∧
      budgetTrace.terminal_state ≠ some .CUSTOMER_DROPPED :=
  ⟨runTrace_reachable exEnv _, by decide, by decide, by decide, by decide⟩

/-- C3 amended: in every reachable conversation state
`total_agent_calls <= MAX_AGENT_CALLS + 2` (the safeguard is checked only
at the start of each `process_message`, and a single turn records at most
three calls, so the counter can overshoot the budget by up to two); and
when a turn starts with no terminal state and
`total_agent_calls >= MAX_AGENT_CALLS`, that turn forces
`terminal_state = CUSTOMER_DROPPED`, sets stage `END`, and records no
calls. -/
theorem C3_amended_budget :
    (∀ s : ConversationState, Reachable s →
      s.total_agent_calls ≤ MAX_AGENT_CALLS + 2) ∧
    (∀ (env : Env) (m : String) (s : ConversationState),
      s.terminal_state = none → MAX_AGENT_CALLS ≤ s.total_agent_calls →
      (MasterAgent.process_message env m s).2.terminal_state =
          some .CUSTOMER_DROPPED ∧
        (MasterAgent.process_message env m s).2.stage = .END ∧
        (MasterAgent.process_message env m s).2.total_agent_calls =
          s.total_agent_calls) := by
  constructor
  · exact fun s h => (Inv_reachable h).2.2.2.1
  · intro env m s hterm hbud
    simp only [MasterAgent.process_message, MasterAgent.check_safeguards,
      ConversationState.add_message]
    simp [hterm, hbud]

/-- Witness for the amended C3 at concrete inputs: the reachable
`budgetTrace`, and a non-terminal state whose counter already reached the
budget. -/
theorem C3_witness :
    budgetTrace.total_agent_calls ≤ MAX_AGENT_CALLS + 2 ∧
      (MasterAgent.process_message exEnv "hello"
        { total_agent_calls := 6 }).2.terminal_state = some .CUSTOMER_DROPPED :=
  ⟨C3_amended_budget.1 budgetTrace (runTrace_reachable exEnv _),
    (C3_amended_budget.2 exEnv "hello" { total_agent_calls := 6 } rfl
      (by decide)).1⟩

/-- C4: `can_call_agent name inputHash` returns false whenever the exact
signature `name:inputHash` was already recorded, and in every reachable
conversation state each call signature appears in `agent_call_history` at
most once (the history has no duplicates). -/
theorem C4_signature_unique :
    (∀ (s : ConversationState) (n h : String),
      (n ++ ":" ++ h) ∈ s.agent_call_history → s.can_call_agent n h = false) ∧
    (∀ s : ConversationState, Reachable s → s.agent_call_history.Nodup) := by
  constructor
  · intro s n h hm
    unfold ConversationState.can_call_agent
    simp [hm]
  · exact fun s h => (Inv_reachable h).2.1

/-- Witness for C4: a state whose history holds `A:h` rejects a repeat of
`A:h`, and the reachable `dropTrace` history has no duplicates. -/
theorem C4_witness :
    ({ agent_call_history := ["A:h"] } : ConversationState).can_call_agent
        "A" "h" = false ∧
      dropTrace.agent_call_history.Nodup :=
  ⟨C4_signature_unique.1 { agent_call_history := ["A:h"] } "A" "h" (by decide),
    C4_signature_unique.2 dropTrace (runTrace_reachable exEnv _)⟩

/-- C5: once `terminal_state` is set, every subsequent `process_message`
call leaves `terminal_state` and `stage` unchanged and invokes no worker
agent or collaborator: `agent_call_history` gains no entry and
`total_agent_calls` does not change (the safeguard returns before any
handler runs). -/
theorem C5_terminal_frozen (env : Env) (m : String) (s : ConversationState)
    (hterm : s.terminal_state ≠ none) :
    (MasterAgent.process_message env m s).2.terminal_state = s.terminal_state ∧
      (MasterAgent.process_message env m s).2.stage = s.stage ∧
      (MasterAgent.process_message env m s).2.agent_call_history =
        s.agent_call_history ∧
      (MasterAgent.process_message env m s).2.total_agent_calls =
        s.total_agent_calls := by
  cases hts : s.terminal_state with
  | none => exact absurd hts hterm
  | some t =>
    simp only [MasterAgent.process_message, MasterAgent.check_safeguards,
      ConversationState.add_message]
    simp [hts]

/-- Witness for C5 at the concrete terminal `dropTrace` state. -/
theorem C5_witness :
    (MasterAgent.process_message exEnv "hello again" dropTrace).2.terminal_state =
        dropTrace.terminal_state ∧
      (MasterAgent.process_message exEnv "hello again" dropTrace).2.stage =
        dropTrace.stage ∧
      (MasterAgent.process_message exEnv "hello again" dropTrace).2.agent_call_history =
        dropTrace.agent_call_history ∧
      (MasterAgent.process_message exEnv "hello again" dropTrace).2.total_agent_calls =
        dropTrace.total_agent_calls :=
  C5_terminal_frozen exEnv "hello again" dropTrace (by decide)

/-- C10: in every reachable conversation state `total_agent_calls` equals
the length of `agent_call_history` (`record_agent_call` is the only
operation updating either, appending one signature and adding one to the
counter). -/
theorem C10_counter_matches_history (s : ConversationState) (h : Reachable s) :
    s.total_agent_calls = s.agent_call_history.length :=
  (Inv_reachable h).1

/-- Witness for C10 at the reachable `budgetTrace` (counter 7, seven
signatures). -/
theorem C10_witness :
    budgetTrace.total_agent_calls = budgetTrace.agent_call_history.length ∧
      budgetTrace.agent_call_history.length = 7 :=
  ⟨C10_counter_matches_history budgetTrace (runTrace_reachable exEnv _), by decide⟩

/-- C9 counterexample: a reachable state at stage `END` for which a further
`process_message` call does mutate the `ConversationState` — the user
message is appended to `messages` before the safeguard runs, so the state
is not identical before and after. -/
theorem C9_counterexample :
    Reachable dropTrace ∧ dropTrace.stage = .END ∧
      (MasterAgent.process_message exEnv "hello again" dropTrace).2.messages ≠
        dropTrace.messages :=
  ⟨runTrace_reachable exEnv _, by decide, by decide⟩

/-- C9 amended: once stage is `END` (every reachable `END` state carries a
terminal state), a further `process_message` call returns the fixed
safeguard message determined by the terminal state — the `_handle_end`
closing texts are unreachable — and the only state change is the user
message appended to `messages`; all other fields are untouched. -/
theorem C9_amended_end_frame (env : Env) (m : String) (s : ConversationState)
    (hr : Reachable s) (hEnd : s.stage = .END) :
    ∃ t : TerminalState, s.terminal_state = some t ∧
      MasterAgent.process_message env m s =
        ("Conversation ended: " ++ t.value, s.add_message "user" m) := by
  have h5 := (Inv_reachable hr).2.2.2.2.1
  have hterm : s.terminal_state ≠ none := h5.mpr hEnd
  cases hts : s.terminal_state with
  | none => exact absurd hts hterm
  | some t =>
    refine ⟨t, rfl, ?_⟩
    simp only [MasterAgent.process_message, MasterAgent.check_safeguards,
      ConversationState.add_message]
    simp [hts]

/-- Witness for the amended C9 at the concrete `dropTrace` state. -/
theorem C9_witness :
    dropTrace.stage = .END ∧
      MasterAgent.process_message exEnv "hello again" dropTrace =
        ("Conversation ended: CUSTOMER_DROPPED",
          dropTrace.add_message "user" "hello again") := by
  have hEnd : dropTrace.stage = .END := by decide
  obtain ⟨t, ht, heq⟩ := C9_amended_end_frame exEnv "hello again" dropTrace
    (runTrace_reachable exEnv _) hEnd
  have htv : t = TerminalState.CUSTOMER_DROPPED := by
    have : dropTrace.terminal_state = some TerminalState.CUSTOMER_DROPPED := by decide
    rw [this] at ht
    exact (Option.some_injective _ ht).symm
  subst htv
  exact ⟨hEnd, heq⟩

end Polaris
